import Mathlib

/-!
Shallow embedding of the SoapyBladeRF streaming engine
(`bladeRF_Streaming.cpp`): stream-setup parameter computation, the RX
command queue and overflow handling of `readStream`, the TX burst state
machine of `writeStream`, and stream activation and deactivation.
Device interactions (`bladerf_sync_rx`, `bladerf_sync_tx`,
`bladerf_get_timestamp`) are modelled by outcome parameters; each
streaming function also returns a record of the device call it made (or
`none` when no device call was performed), so that theorems can speak
about the presence, the arguments and the absence of device calls.
The tick/time conversions `_rxTicksToTimeNs`, `_timeNsToRxTicks`,
`_timeNsToTxTicks` and `_txTicksToTimeNs` live in the class header
outside this translation unit; the streaming code only applies them, so
they are passed as abstract function parameters.
-/

namespace SoapyBladeRF

/-- SoapySDR result code (SoapySDR/Errors.h): timeout. -/
def SOAPY_SDR_TIMEOUT : Int := -1

/-- SoapySDR result code: stream error. -/
def SOAPY_SDR_STREAM_ERROR : Int := -2

/-- SoapySDR result code: overflow. -/
def SOAPY_SDR_OVERFLOW : Int := -4

/-- SoapySDR result code: flag or operation not supported. -/
def SOAPY_SDR_NOT_SUPPORTED : Int := -5

/-- SoapySDR result code: time error (time in the past). -/
def SOAPY_SDR_TIME_ERROR : Int := -6

/-- SoapySDR result code: underflow. -/
def SOAPY_SDR_UNDERFLOW : Int := -7

/-- SoapySDR stream flag (SoapySDR/Constants.h): end of burst, bit 1. -/
def SOAPY_SDR_END_BURST : Nat := 2

/-- SoapySDR stream flag: a valid timestamp is present, bit 2. -/
def SOAPY_SDR_HAS_TIME : Nat := 4

/-- SoapySDR stream flag: user flag 0, bit 16. -/
def SOAPY_SDR_USER_FLAG0 : Nat := 65536

/-- SoapySDR stream flag: user flag 1, bit 17. -/
def SOAPY_SDR_USER_FLAG1 : Nat := 131072

/-- libbladeRF metadata flag: start of TX burst, bit 0. -/
def BLADERF_META_FLAG_TX_BURST_START : Nat := 1

/-- libbladeRF metadata flag: end of TX burst, bit 1. -/
def BLADERF_META_FLAG_TX_BURST_END : Nat := 2

/-- libbladeRF metadata flag: transmit immediately, bit 2. -/
def BLADERF_META_FLAG_TX_NOW : Nat := 4

/-- libbladeRF metadata flag: update timestamp mid-burst, bit 3. -/
def BLADERF_META_FLAG_TX_UPDATE_TIMESTAMP : Nat := 8

/-- libbladeRF metadata flag: receive immediately, bit 31. -/
def BLADERF_META_FLAG_RX_NOW : Nat := 2147483648

/-- Modulus of the C `size_t` and `uint64_t` types on the target
(64-bit): arithmetic on command element counts and hardware timestamps
wraps at this bound. -/
def USIZE : Nat := 2 ^ 64

/-- Wrapping `size_t` subtraction `a - b` for `a b < USIZE`, as the C
expression `cmd.numElems -= numElems` computes it. -/
def usub (a b : Nat) : Nat := (a + (USIZE - b % USIZE)) % USIZE

/-- The driver's `StreamMetadata` record: an RX command or a queued TX
status event (flags, timestamp in nanoseconds, element count, result
code). -/
structure StreamMetadata where
  flags : Nat := 0
  timeNs : Int := 0
  numElems : Nat := 0
  code : Int := 0
deriving Repr, DecidableEq

/-- RX-direction state of the `bladeRF_SoapySDR` object: the command
queue `_rxCmds` (head first), the `_rxOverflow` flag, the next-expected
tick `_rxNextTicks`, the conversion-buffer capacity `_rxBuffSize`, the
channel list `_rxChans`, the float-format flag `_rxFloats` and the
minimum receive timeout `_rxMinTimeoutMs`. -/
structure RxState where
  rxCmds : List StreamMetadata
  rxOverflow : Bool
  rxNextTicks : Nat
  rxBuffSize : Nat
  rxChans : List Nat
  rxFloats : Bool
  rxMinTimeoutMs : Int
deriving Repr, DecidableEq

/-- Status word returned by `bladerf_sync_rx`, as the booleans the
driver tests (`BLADERF_META_STATUS_OVERRUN` and the two MINIEXP
hardware flag bits). -/
structure RxDevStatus where
  overrun : Bool
  miniexp1 : Bool
  miniexp2 : Bool
deriving Repr, DecidableEq

/-- Outcome of a `bladerf_sync_rx` call: timeout, time-in-the-past, a
generic nonzero error code, or success with the actual total sample
count (all channels), the hardware timestamp and the status word. -/
inductive RxDevOutcome where
  | timeout
  | timePast
  | err (code : Int)
  | ok (actualCount : Nat) (timestamp : Nat) (status : RxDevStatus)
deriving Repr, DecidableEq

/-- Record of a `bladerf_sync_rx` call: requested total sample count,
metadata flags and timestamp passed in, and the timeout in
milliseconds. -/
structure RxDevCall where
  count : Nat
  mdFlagsIn : Nat
  mdTimestampIn : Nat
  timeoutMs : Int
deriving Repr, DecidableEq

/-- Result of `readStream`: the returned code (element count when
nonnegative), the values written through the `flags` and `timeNs`
output references (`none` when the early return leaves them
untouched), and the device call made, if any. -/
structure ReadResult where
  ret : Int
  flagsOut : Option Nat
  timeNsOut : Option Int
  devCall : Option RxDevCall
deriving Repr, DecidableEq

/-- The `bladeRF_SoapySDR::readStream` body: clip the request to the
conversion buffer, time out on an empty command queue, report a pending
overflow without touching the device, otherwise build the receive
metadata from the head command, clear the head command's flags, issue
the device receive and on success convert, consume the head command's
finite count and advance the next-expected tick.  `nsToTicks` and
`ticksToNs` stand for `_timeNsToRxTicks` and `_rxTicksToTimeNs`. -/
def readStream (s : RxState) (numElemsReq : Nat) (timeoutUs : Int)
    (dev : RxDevOutcome) (nsToTicks : Int → Nat) (ticksToNs : Nat → Int) :
    RxState × ReadResult :=
  let numElems := min numElemsReq s.rxBuffSize
  match s.rxCmds with
  | [] => (s, ⟨SOAPY_SDR_TIMEOUT, none, none, none⟩)
  | cmd :: rest =>
    if s.rxOverflow then
      ({ s with rxOverflow := false },
       ⟨SOAPY_SDR_OVERFLOW, some SOAPY_SDR_HAS_TIME,
        some (ticksToNs s.rxNextTicks), none⟩)
    else
      let mdFlags := if cmd.flags &&& SOAPY_SDR_HAS_TIME = 0 then
        BLADERF_META_FLAG_RX_NOW else 0
      let mdTimestamp := nsToTicks cmd.timeNs
      let numElems := if 0 < cmd.numElems then min cmd.numElems numElems
        else numElems
      let cmd1 : StreamMetadata := { cmd with flags := 0 }
      let timeoutMs := max s.rxMinTimeoutMs (Int.tdiv timeoutUs 1000)
      let call : RxDevCall :=
        ⟨numElems * s.rxChans.length, mdFlags, mdTimestamp, timeoutMs⟩
      match dev with
      | .timeout =>
        ({ s with rxCmds := cmd1 :: rest },
         ⟨SOAPY_SDR_TIMEOUT, some 0, some 0, some call⟩)
      | .timePast =>
        ({ s with rxCmds := cmd1 :: rest },
         ⟨SOAPY_SDR_TIME_ERROR, some 0, some 0, some call⟩)
      | .err _ =>
        ({ s with rxCmds := if 0 < cmd1.numElems then rest
            else cmd1 :: rest },
         ⟨SOAPY_SDR_STREAM_ERROR, some 0, some 0, some call⟩)
      | .ok actualCount timestamp status =>
        let recvd := actualCount / s.rxChans.length
        let flags := SOAPY_SDR_HAS_TIME
          ||| (if status.miniexp1 then SOAPY_SDR_USER_FLAG0 else 0)
          ||| (if status.miniexp2 then SOAPY_SDR_USER_FLAG1 else 0)
        let cmds := if 0 < cmd1.numElems then
            (if usub cmd1.numElems recvd = 0 then rest
             else { cmd1 with numElems := usub cmd1.numElems recvd } :: rest)
          else cmd1 :: rest
        ({ s with
            rxCmds := cmds
            rxOverflow := status.overrun
            rxNextTicks := (timestamp + recvd) % USIZE },
         ⟨Int.ofNat recvd, some flags, some (ticksToNs timestamp), some call⟩)

/-- The RX branch of `bladeRF_SoapySDR::activateStream`: enqueue a
command built from the call's flags, time and element count at the tail
of `_rxCmds` and return 0.  The C `StreamMetadata` leaves `code`
uninitialized; the model uses the default. -/
def activateStreamRx (s : RxState) (flags : Nat) (timeNs : Int)
    (numElems : Nat) : RxState × Int :=
  ({ s with rxCmds :=
      s.rxCmds ++ [{ flags := flags, timeNs := timeNs, numElems := numElems }] },
   0)

/-- The RX branch of `bladeRF_SoapySDR::deactivateStream`: reject
nonzero flags, otherwise pop every queued command. -/
def deactivateStreamRx (s : RxState) (flags : Nat) : RxState × Int :=
  if flags ≠ 0 then (s, SOAPY_SDR_NOT_SUPPORTED)
  else ({ s with rxCmds := [] }, 0)

/-- TX-direction state of the `bladeRF_SoapySDR` object: the queue of
status events `_txResps` (front first), the `_inTxBurst` flag, the
next-expected tick `_txNextTicks`, the conversion-buffer capacity
`_txBuffSize`, the channel list `_txChans` and the float-format flag
`_txFloats`. -/
structure TxState where
  txResps : List StreamMetadata
  inTxBurst : Bool
  txNextTicks : Nat
  txBuffSize : Nat
  txChans : List Nat
  txFloats : Bool
deriving Repr, DecidableEq

/-- Status word returned by `bladerf_sync_tx`, as the boolean the
driver tests (`BLADERF_META_STATUS_UNDERRUN`). -/
structure TxDevStatus where
  underrun : Bool
deriving Repr, DecidableEq

/-- Outcome of a `bladerf_sync_tx` call: timeout, time-in-the-past, a
generic nonzero error code, or success with the status word. -/
inductive TxDevOutcome where
  | timeout
  | timePast
  | err (code : Int)
  | ok (status : TxDevStatus)
deriving Repr, DecidableEq

/-- Record of a `bladerf_sync_tx` call issued by `writeStream`: total
sample count, metadata flags and timestamp passed in, and the timeout
in milliseconds. -/
structure TxDevCall where
  count : Nat
  mdFlagsIn : Nat
  mdTimestampIn : Nat
  timeoutMs : Int
deriving Repr, DecidableEq

/-- Result of `writeStream`: the returned code (element count when
nonnegative), the final value of the in/out `flags` reference, and the
record of the device call (always made). -/
structure WriteResult where
  ret : Int
  flagsOut : Nat
  devCall : TxDevCall
deriving Repr, DecidableEq

/-- Clearing of a flag bit, as the C expression `flags &= ~mask`
computes it: the bits of `flags &&& mask` are a subset of the bits of
`flags`, so subtracting them clears exactly those bits. -/
def clearFlagBit (flags mask : Nat) : Nat := flags - (flags &&& mask)

/-- The `bladeRF_SoapySDR::writeStream` body: clear the end-of-burst
flag when the request exceeds the conversion buffer, clip the request,
build the burst metadata (start a new burst or update the timestamp of
the open one), mark burst end when the flag survives, issue the device
transmit and on success advance the next-expected tick, record the
open-burst flag and enqueue underflow and burst-end status events.
`nowTicks` stands for the `bladerf_get_timestamp` reading; `nsToTicks`
and `ticksToNs` stand for `_timeNsToTxTicks` and `_txTicksToTimeNs`. -/
def writeStream (s : TxState) (numElemsReq : Nat) (flagsIn : Nat)
    (timeNs : Int) (timeoutUs : Int) (nowTicks : Nat) (dev : TxDevOutcome)
    (nsToTicks : Int → Nat) (ticksToNs : Nat → Int) : TxState × WriteResult :=
  let flags := if s.txBuffSize < numElemsReq then
    clearFlagBit flagsIn SOAPY_SDR_END_BURST else flagsIn
  let numElems := min numElemsReq s.txBuffSize
  let mdStart : Nat × Nat × Nat :=
    if s.inTxBurst then
      (if flags &&& SOAPY_SDR_HAS_TIME ≠ 0 then
        (BLADERF_META_FLAG_TX_UPDATE_TIMESTAMP, nsToTicks timeNs,
         nsToTicks timeNs)
       else (0, 0, s.txNextTicks))
    else
      (if flags &&& SOAPY_SDR_HAS_TIME ≠ 0 then
        (BLADERF_META_FLAG_TX_BURST_START, nsToTicks timeNs, nsToTicks timeNs)
       else (BLADERF_META_FLAG_TX_BURST_START ||| BLADERF_META_FLAG_TX_NOW,
         0, nowTicks))
  let mdFlags := if flags &&& SOAPY_SDR_END_BURST ≠ 0 then
    mdStart.1 ||| BLADERF_META_FLAG_TX_BURST_END else mdStart.1
  let call : TxDevCall :=
    ⟨numElems * s.txChans.length, mdFlags, mdStart.2.1,
     Int.tdiv timeoutUs 1000⟩
  match dev with
  | .timeout =>
    ({ s with txNextTicks := mdStart.2.2 },
     ⟨SOAPY_SDR_TIMEOUT, flags, call⟩)
  | .timePast =>
    ({ s with txNextTicks := mdStart.2.2 },
     ⟨SOAPY_SDR_TIME_ERROR, flags, call⟩)
  | .err _ =>
    ({ s with txNextTicks := mdStart.2.2 },
     ⟨SOAPY_SDR_STREAM_ERROR, flags, call⟩)
  | .ok status =>
    let nextTicks := (mdStart.2.2 + numElems) % USIZE
    let resps1 := if status.underrun then
      s.txResps ++ [{ flags := 0, code := SOAPY_SDR_UNDERFLOW }]
      else s.txResps
    let endFlagged := flags &&& SOAPY_SDR_END_BURST ≠ 0
    let resps2 := if endFlagged then
      resps1 ++ [{ flags := SOAPY_SDR_END_BURST ||| SOAPY_SDR_HAS_TIME
                   timeNs := ticksToNs nextTicks
                   code := 0 }]
      else resps1
    ({ s with
        txResps := resps2
        inTxBurst := not endFlagged
        txNextTicks := nextTicks },
     ⟨Int.ofNat numElems, flags, call⟩)

/-- Record of the `bladerf_sync_tx` call synthesized by the TX branch
of `deactivateStream`: the two interleaved sample words written into
the conversion buffer, the sample count, metadata flags and timestamp,
and the timeout in milliseconds. -/
structure TxDeactCall where
  sampleI : Int
  sampleQ : Int
  count : Nat
  mdFlags : Nat
  mdTimestamp : Nat
  timeoutMs : Nat
deriving Repr, DecidableEq

/-- The TX branch of `bladeRF_SoapySDR::deactivateStream`: reject
nonzero flags; when a burst is open, send one zero-valued sample
carrying the burst-end metadata flag with a 100 ms timeout, ignoring
the device outcome `devRet`, and force `_inTxBurst` to false. -/
def deactivateStreamTx (s : TxState) (flags : Nat) (_devRet : Int) :
    TxState × Int × Option TxDeactCall :=
  if flags ≠ 0 then (s, SOAPY_SDR_NOT_SUPPORTED, none)
  else if s.inTxBurst then
    ({ s with inTxBurst := false }, 0,
     some ⟨0, 0, 1, BLADERF_META_FLAG_TX_BURST_END, 0, 100⟩)
  else ({ s with inTxBurst := false }, 0, none)

/-- Default number of device buffers (`DEF_NUM_BUFFS`). -/
def DEF_NUM_BUFFS : Int := 32

/-- Default buffer length in samples (`DEF_BUFF_LEN`). -/
def DEF_BUFF_LEN : Int := 4096

/-- The `numBuffs` computation of `setupStream`: an absent `buffers`
argument reads as 0 (like `atoi` of a missing entry), 0 becomes the
default 32, and 1 is incremented to 2. -/
def setupNumBuffs (buffers : Option Int) : Int :=
  let n := match buffers with | none => 0 | some v => v
  let n := if n = 0 then DEF_NUM_BUFFS else n
  if n = 1 then n + 1 else n

/-- The `bufSize` computation of `setupStream`: an absent `buflen`
argument reads as 0, 0 becomes the default 4096, and a value that is
not a multiple of 1024 becomes `(v/1024 + 1) * 1024` under the C `int`
truncating division and remainder. -/
def setupBufSize (buflen : Option Int) : Int :=
  let n := match buflen with | none => 0 | some v => v
  let n := if n = 0 then DEF_BUFF_LEN else n
  if Int.tmod n 1024 ≠ 0 then (Int.tdiv n 1024 + 1) * 1024 else n

/-- The `numXfers` computation of `setupStream`: an absent `transfers`
argument reads as 0, 0 becomes half the computed buffer count, then the
value is lowered to the buffer count and to the libusb limit 32 when it
exceeds them. -/
def setupNumXfers (buffers transfers : Option Int) : Int :=
  let numBuffs := setupNumBuffs buffers
  let n := match transfers with | none => 0 | some v => v
  let n := if n = 0 then Int.tdiv numBuffs 2 else n
  let n := if numBuffs < n then numBuffs else n
  if 32 < n then 32 else n

/-- Stream direction tag. -/
inductive Direction where
  | rx
  | tx
deriving Repr, DecidableEq

/-- The bladeRF channel layouts selectable by `setupStream`. -/
inductive ChannelLayout where
  | rxX1
  | txX1
  | rxX2
  | txX2
deriving Repr, DecidableEq

/-- The channel-list defaulting at the top of `setupStream`: an empty
channel list becomes the single-channel list `[0]`. -/
def resolveChannels (channels : List Nat) : List Nat :=
  if channels.isEmpty then [0] else channels

/-- The channel-configuration check of `setupStream`: a one-element
list holding 0 or 1 selects the X1 layout for the direction, the exact
list `[0, 1]` selects the X2 layout, and anything else is the
`setupStream invalid channel selection` error (`none`). -/
def channelLayout (direction : Direction) (channels : List Nat) :
    Option ChannelLayout :=
  match channels with
  | [c0] =>
    if c0 = 0 ∨ c0 = 1 then
      some (if direction = Direction.rx then ChannelLayout.rxX1
        else ChannelLayout.txX1)
    else none
  | [c0, c1] =>
    if c0 = 0 ∧ c1 = 1 then
      some (if direction = Direction.rx then ChannelLayout.rxX2
        else ChannelLayout.txX2)
    else none
  | _ => none

/-- Exact rational value of the single-channel float receive
conversion for 16-bit native formats: the source computes
`float(_rxConvBuff[i]) / 2048` in IEEE-754 binary32; for any int16
value the conversion to binary32 is exact and the division by the
power of two 2048 only shifts the exponent, so the computed float
denotes exactly this rational. -/
def rxFloatSample16 (v : Int) : ℚ := (v : ℚ) / 2048

/-- Exact rational value of the single-channel float receive
conversion for 8-bit native formats: the source computes
`float(((int8_t*)_rxConvBuff)[i]) / 128` in binary32, which is exact
for any int8 value. -/
def rxFloatSample8 (v : Int) : ℚ := (v : ℚ) / 128

/-- Representability of a rational as an IEEE-754 binary32 value: a
significand of magnitude below `2^24` times a power of two within the
(sub)normal exponent range.  A binary32 operation whose exact result is
representable returns it unchanged under any rounding mode. -/
def reprFloat32 (q : ℚ) : Prop :=
  ∃ m e : Int, m.natAbs < 2 ^ 24 ∧ -149 ≤ e ∧ e ≤ 104 ∧
    q = (m : ℚ) * (2 : ℚ) ^ e

/-- Rounding up to the next multiple of 1024, the specification's
description of the buffer-length adjustment: the least multiple of 1024
that is not below `v`, via floor division. -/
def roundUpTo1024 (v : Int) : Int := 1024 * ((v + 1023) / 1024)

/-- C1: for every RX stream with a non-empty command queue whose
overflow flag is set, `readStream` clears the flag, sets `HAS_TIME`,
writes the next-expected receive tick converted to nanoseconds into
`timeNs`, returns the overflow code without any device receive call,
and a subsequent `readStream` behaves exactly as if the overflow flag
had never been set. -/
theorem C1_overflowReported (s : RxState) (cmd : StreamMetadata)
    (rest : List StreamMetadata) (hq : s.rxCmds = cmd :: rest)
    (hov : s.rxOverflow = true) (numElemsReq : Nat) (timeoutUs : Int)
    (dev : RxDevOutcome) (nsToTicks : Int → Nat) (ticksToNs : Nat → Int) :
    (readStream s numElemsReq timeoutUs dev nsToTicks ticksToNs).2
      = ⟨SOAPY_SDR_OVERFLOW, some SOAPY_SDR_HAS_TIME,
         some (ticksToNs s.rxNextTicks), none⟩ ∧
    (readStream s numElemsReq timeoutUs dev nsToTicks ticksToNs).1
      = { s with rxOverflow := false } ∧
    (∀ n2 t2 d2,
      readStream
          (readStream s numElemsReq timeoutUs dev nsToTicks ticksToNs).1
          n2 t2 d2 nsToTicks ticksToNs
        = readStream { s with rxOverflow := false } n2 t2 d2
            nsToTicks ticksToNs) := by
  have h1 : readStream s numElemsReq timeoutUs dev nsToTicks ticksToNs
      = ({ s with rxOverflow := false },
         ⟨SOAPY_SDR_OVERFLOW, some SOAPY_SDR_HAS_TIME,
          some (ticksToNs s.rxNextTicks), none⟩) := by
    simp [readStream, hq, hov]
  rw [h1]
  exact ⟨rfl, rfl, fun n2 t2 d2 => rfl⟩

/-- Witness for C1 at a concrete state with one queued command and the
overflow flag set. -/
theorem C1_overflowReported_witness :
    (readStream ⟨[⟨0, 0, 100, 0⟩], true, 7, 4096, [0], false, 10⟩ 64 1000
        RxDevOutcome.timeout (fun _ => 0) (fun t => 2 * (t : Int))).2
      = ⟨SOAPY_SDR_OVERFLOW, some SOAPY_SDR_HAS_TIME, some 14, none⟩ :=
  (C1_overflowReported ⟨[⟨0, 0, 100, 0⟩], true, 7, 4096, [0], false, 10⟩
    ⟨0, 0, 100, 0⟩ [] rfl rfl 64 1000 RxDevOutcome.timeout
    (fun _ => 0) (fun t => 2 * (t : Int))).1

/-- C9: with an empty RX command queue, `readStream` returns the
timeout code immediately, leaving the whole state (the overflow flag
included) unchanged and the output references unwritten; when the
overflow flag was set, a later call made after a command is queued
returns the overflow code. -/
theorem C9_emptyQueueTimeout (s : RxState) (h : s.rxCmds = [])
    (numElemsReq : Nat) (timeoutUs : Int) (dev : RxDevOutcome)
    (nsToTicks : Int → Nat) (ticksToNs : Nat → Int) :
    readStream s numElemsReq timeoutUs dev nsToTicks ticksToNs
      = (s, ⟨SOAPY_SDR_TIMEOUT, none, none, none⟩) ∧
    (s.rxOverflow = true → ∀ fl tn ne n2 t2 d2,
      ((readStream ((activateStreamRx s fl tn ne).1) n2 t2 d2
          nsToTicks ticksToNs).2).ret = SOAPY_SDR_OVERFLOW) := by
  constructor
  · simp [readStream, h]
  · intro hov fl tn ne n2 t2 d2
    simp [readStream, activateStreamRx, h, hov]

/-- Witness for C9 at a concrete state with an empty queue and the
overflow flag set. -/
theorem C9_emptyQueueTimeout_witness :
    readStream ⟨[], true, 7, 4096, [0], false, 10⟩ 64 1000
        (RxDevOutcome.ok 50 900 ⟨false, false, false⟩)
        (fun _ => 0) (fun t => (t : Int))
      = (⟨[], true, 7, 4096, [0], false, 10⟩,
         ⟨SOAPY_SDR_TIMEOUT, none, none, none⟩) :=
  (C9_emptyQueueTimeout ⟨[], true, 7, 4096, [0], false, 10⟩ rfl 64 1000
    (RxDevOutcome.ok 50 900 ⟨false, false, false⟩)
    (fun _ => 0) (fun t => (t : Int))).1

/-- Wrapping `size_t` subtraction agrees with truncated subtraction
when no wrap occurs. -/
theorem usub_eq_sub (a b : Nat) (hb : b ≤ a) (ha : a < USIZE) :
    usub a b = a - b := by
  have h64 : USIZE = 18446744073709551616 := by norm_num [USIZE]
  rw [h64] at ha
  simp only [usub, h64]
  omega

/-- Wrapping `size_t` subtraction of a value from itself is zero. -/
theorem usub_self (a : Nat) : usub a a = 0 := by
  have h64 : USIZE = 18446744073709551616 := by norm_num [USIZE]
  simp only [usub, h64]
  omega

/-- C2: RX activation enqueues a command with the given flags, time and
count at the queue tail; a successful `readStream` decrements a finite
head command by the element count actually received, returning that
count, and pops the command exactly when the remaining count reaches
zero; a continuous (count 0) head command survives consumption whatever
amount the read received; and `deactivateStream` with zero flags
empties the queue. -/
theorem C2_rxCommandQueue (s : RxState) (cmd : StreamMetadata)
    (rest : List StreamMetadata) (hq : s.rxCmds = cmd :: rest)
    (hov : s.rxOverflow = false) (numElemsReq : Nat) (timeoutUs : Int)
    (actualCount timestamp : Nat) (status : RxDevStatus)
    (nsToTicks : Int → Nat) (ticksToNs : Nat → Int) :
    (∀ fl tn ne, ∃ c, (activateStreamRx s fl tn ne).1.rxCmds
        = s.rxCmds ++ [c] ∧ c.flags = fl ∧ c.timeNs = tn
        ∧ c.numElems = ne) ∧
    ((readStream s numElemsReq timeoutUs
        (RxDevOutcome.ok actualCount timestamp status)
        nsToTicks ticksToNs).2).ret
      = Int.ofNat (actualCount / s.rxChans.length) ∧
    (actualCount / s.rxChans.length < cmd.numElems →
      cmd.numElems < USIZE →
      (readStream s numElemsReq timeoutUs
          (RxDevOutcome.ok actualCount timestamp status)
          nsToTicks ticksToNs).1.rxCmds
        = { cmd with
            flags := 0
            numElems := cmd.numElems - actualCount / s.rxChans.length }
          :: rest) ∧
    (0 < cmd.numElems → actualCount / s.rxChans.length = cmd.numElems →
      (readStream s numElemsReq timeoutUs
          (RxDevOutcome.ok actualCount timestamp status)
          nsToTicks ticksToNs).1.rxCmds = rest) ∧
    (cmd.numElems = 0 →
      (readStream s numElemsReq timeoutUs
          (RxDevOutcome.ok actualCount timestamp status)
          nsToTicks ticksToNs).1.rxCmds
        = { cmd with flags := 0 } :: rest) ∧
    ((deactivateStreamRx s 0).1.rxCmds = [] ∧
      (deactivateStreamRx s 0).2 = 0) := by
  refine ⟨?_, ?_, ?_, ?_, ?_, ?_, ?_⟩
  · intro fl tn ne
    exact ⟨{ flags := fl, timeNs := tn, numElems := ne }, by
      simp [activateStreamRx], rfl, rfl, rfl⟩
  · simp [readStream, hq, hov]
  · intro h hlt
    have h0 : 0 < cmd.numElems := Nat.lt_of_le_of_lt (Nat.zero_le _) h
    have hu : usub cmd.numElems (actualCount / s.rxChans.length)
        = cmd.numElems - actualCount / s.rxChans.length :=
      usub_eq_sub _ _ (Nat.le_of_lt h) hlt
    have hne : cmd.numElems - actualCount / s.rxChans.length ≠ 0 := by
      omega
    simp [readStream, hq, hov, h0, hu, hne]
  · intro h0 h
    have hz : usub cmd.numElems (actualCount / s.rxChans.length) = 0 := by
      rw [h]
      exact usub_self _
    simp [readStream, hq, hov, h0, hz]
  · intro h
    simp [readStream, hq, hov, h]
  · simp [deactivateStreamRx]
  · simp [deactivateStreamRx]

/-- Witness for C2 at concrete states: a command for 100 elements
receives 40 and keeps the head with 60 remaining, and a continuous
(count 0) command survives a read that received 40 elements. -/
theorem C2_rxCommandQueue_witness :
    (readStream ⟨[⟨4, 1000, 100, 0⟩], false, 0, 4096, [0], false, 10⟩
        64 1000 (RxDevOutcome.ok 40 900 ⟨false, false, false⟩)
        (fun _ => 0) (fun t => (t : Int))).1.rxCmds
      = [⟨0, 1000, 60, 0⟩] ∧
    (readStream ⟨[⟨4, 1000, 0, 0⟩], false, 0, 4096, [0], false, 10⟩
        64 1000 (RxDevOutcome.ok 40 900 ⟨false, false, false⟩)
        (fun _ => 0) (fun t => (t : Int))).1.rxCmds
      = [⟨0, 1000, 0, 0⟩] :=
  ⟨(C2_rxCommandQueue ⟨[⟨4, 1000, 100, 0⟩], false, 0, 4096, [0], false, 10⟩
      ⟨4, 1000, 100, 0⟩ [] rfl rfl 64 1000 40 900 ⟨false, false, false⟩
      (fun _ => 0) (fun t => (t : Int))).2.2.1 (by decide)
      (by norm_num [USIZE]),
   (C2_rxCommandQueue ⟨[⟨4, 1000, 0, 0⟩], false, 0, 4096, [0], false, 10⟩
      ⟨4, 1000, 0, 0⟩ [] rfl rfl 64 1000 40 900 ⟨false, false, false⟩
      (fun _ => 0) (fun t => (t : Int))).2.2.2.2.1 rfl⟩

/-- C3: a generic device error during `readStream` yields the
stream-error code; a finite-count head command is popped (the rest of
the state untouched), while a continuous (count 0) head command stays
at the head of the queue, with only its flags cleared, so the next read
retries against it. -/
theorem C3_rxHardError (s : RxState) (cmd : StreamMetadata)
    (rest : List StreamMetadata) (hq : s.rxCmds = cmd :: rest)
    (hov : s.rxOverflow = false) (numElemsReq : Nat) (timeoutUs : Int)
    (code : Int) (nsToTicks : Int → Nat) (ticksToNs : Nat → Int) :
    ((readStream s numElemsReq timeoutUs (RxDevOutcome.err code)
        nsToTicks ticksToNs).2).ret = SOAPY_SDR_STREAM_ERROR ∧
    (0 < cmd.numElems →
      (readStream s numElemsReq timeoutUs (RxDevOutcome.err code)
          nsToTicks ticksToNs).1 = { s with rxCmds := rest }) ∧
    (cmd.numElems = 0 →
      (readStream s numElemsReq timeoutUs (RxDevOutcome.err code)
          nsToTicks ticksToNs).1
        = { s with rxCmds := { cmd with flags := 0 } :: rest } ∧
      (readStream s numElemsReq timeoutUs (RxDevOutcome.err code)
          nsToTicks ticksToNs).1.rxCmds.head?
        = some { cmd with flags := 0 }) := by
  refine ⟨?_, ?_, ?_⟩
  · simp [readStream, hq, hov]
  · intro h
    simp [readStream, hq, hov, h]
  · intro h
    constructor
    · simp [readStream, hq, hov, h]
    · simp [readStream, hq, hov, h]

/-- Witness for C3 at concrete states: a finite head command is popped
and a continuous head command is kept on a generic device error. -/
theorem C3_rxHardError_witness :
    ((readStream ⟨[⟨0, 0, 100, 0⟩], false, 0, 4096, [0], false, 10⟩
        64 1000 (RxDevOutcome.err 5)
        (fun _ => 0) (fun t => (t : Int))).2).ret
      = SOAPY_SDR_STREAM_ERROR ∧
    (readStream ⟨[⟨0, 0, 100, 0⟩], false, 0, 4096, [0], false, 10⟩
        64 1000 (RxDevOutcome.err 5)
        (fun _ => 0) (fun t => (t : Int))).1
      = ⟨[], false, 0, 4096, [0], false, 10⟩ ∧
    (readStream ⟨[⟨0, 0, 0, 0⟩], false, 0, 4096, [0], false, 10⟩
        64 1000 (RxDevOutcome.err 5)
        (fun _ => 0) (fun t => (t : Int))).1
      = ⟨[⟨0, 0, 0, 0⟩], false, 0, 4096, [0], false, 10⟩ :=
  ⟨(C3_rxHardError ⟨[⟨0, 0, 100, 0⟩], false, 0, 4096, [0], false, 10⟩
      ⟨0, 0, 100, 0⟩ [] rfl rfl 64 1000 5
      (fun _ => 0) (fun t => (t : Int))).1,
   (C3_rxHardError ⟨[⟨0, 0, 100, 0⟩], false, 0, 4096, [0], false, 10⟩
      ⟨0, 0, 100, 0⟩ [] rfl rfl 64 1000 5
      (fun _ => 0) (fun t => (t : Int))).2.1 (by decide),
   ((C3_rxHardError ⟨[⟨0, 0, 0, 0⟩], false, 0, 4096, [0], false, 10⟩
      ⟨0, 0, 0, 0⟩ [] rfl rfl 64 1000 5
      (fun _ => 0) (fun t => (t : Int))).2.2 rfl).1⟩

/-- Clearing the end-of-burst bit really leaves the end-of-burst bit
clear, for every flag word. -/
theorem clearFlagBit_end_burst (n : Nat) :
    clearFlagBit n SOAPY_SDR_END_BURST &&& SOAPY_SDR_END_BURST = 0 := by
  cases hb : n.testBit 1 with
  | false =>
    have hz : n &&& 2 = 0 := by
      have h := Nat.and_two_pow n 1
      rw [hb] at h
      norm_num at h
      exact h
    simp [clearFlagBit, SOAPY_SDR_END_BURST, hz]
  | true =>
    have hdm : decide (n / 2 ^ 1 % 2 = 1) = true := by
      rw [← Nat.testBit_to_div_mod]
      exact hb
    have hn : n / 2 % 2 = 1 := by
      have := of_decide_eq_true hdm
      simpa using this
    have h2' : n &&& 2 = 2 := by
      have h := Nat.and_two_pow n 1
      rw [hb] at h
      norm_num at h
      exact h
    have hlow : (n - 2) / 2 % 2 = 0 := by omega
    have hb' : (n - 2).testBit 1 = false := by
      rw [Nat.testBit_to_div_mod]
      simp [hlow]
    have hz : (n - 2) &&& 2 = 0 := by
      have h := Nat.and_two_pow (n - 2) 1
      rw [hb'] at h
      norm_num at h
      exact h
    simp [clearFlagBit, SOAPY_SDR_END_BURST, h2', hz]

/-- C4: when the requested element count exceeds the TX buffer
capacity, `writeStream` clears the end-of-burst flag before clipping,
so the returned flags and the device metadata carry no burst-end
marker, the device call is clipped to capacity, and no burst-end status
event is enqueued by the call. -/
theorem C4_clipClearsEndBurst (s : TxState) (numElemsReq : Nat)
    (flagsIn : Nat) (timeNs timeoutUs : Int) (nowTicks : Nat)
    (dev : TxDevOutcome) (nsToTicks : Int → Nat) (ticksToNs : Nat → Int)
    (hbig : s.txBuffSize < numElemsReq) :
    ((writeStream s numElemsReq flagsIn timeNs timeoutUs nowTicks dev
        nsToTicks ticksToNs).2).flagsOut &&& SOAPY_SDR_END_BURST = 0 ∧
    ((writeStream s numElemsReq flagsIn timeNs timeoutUs nowTicks dev
        nsToTicks ticksToNs).2).devCall.mdFlagsIn
      &&& BLADERF_META_FLAG_TX_BURST_END = 0 ∧
    ((writeStream s numElemsReq flagsIn timeNs timeoutUs nowTicks dev
        nsToTicks ticksToNs).2).devCall.count
      = s.txBuffSize * s.txChans.length ∧
    (∀ resp ∈ (writeStream s numElemsReq flagsIn timeNs timeoutUs
        nowTicks dev nsToTicks ticksToNs).1.txResps,
      resp ∈ s.txResps ∨ resp.flags &&& SOAPY_SDR_END_BURST = 0) := by
  have hF : clearFlagBit flagsIn SOAPY_SDR_END_BURST
      &&& SOAPY_SDR_END_BURST = 0 := clearFlagBit_end_burst flagsIn
  have hmin : min numElemsReq s.txBuffSize = s.txBuffSize :=
    Nat.min_eq_right (Nat.le_of_lt hbig)
  refine ⟨?_, ?_, ?_, ?_⟩
  · cases dev <;> simp [writeStream, hbig, hF]
  · cases dev <;>
      simp [writeStream, hbig, hF, BLADERF_META_FLAG_TX_BURST_END] <;>
      split_ifs <;>
      simp only [BLADERF_META_FLAG_TX_BURST_START, BLADERF_META_FLAG_TX_NOW,
        BLADERF_META_FLAG_TX_UPDATE_TIMESTAMP] <;>
      decide
  · cases dev <;> simp [writeStream, hbig, hF, hmin]
  · cases dev with
    | ok status =>
      intro resp hresp
      rcases status with ⟨und⟩
      cases und with
      | false =>
        simp [writeStream, hbig, hF] at hresp
        exact Or.inl hresp
      | true =>
        simp [writeStream, hbig, hF] at hresp
        rcases hresp with h | h
        · exact Or.inl h
        · exact Or.inr (by simp [h, SOAPY_SDR_END_BURST])
    | timeout =>
      intro resp hresp
      simp [writeStream, hbig] at hresp
      exact Or.inl hresp
    | timePast =>
      intro resp hresp
      simp [writeStream, hbig] at hresp
      exact Or.inl hresp
    | err code =>
      intro resp hresp
      simp [writeStream, hbig] at hresp
      exact Or.inl hresp

/-- Witness for C4 at a concrete oversized end-flagged write: the
returned flags and the device metadata both lack the burst-end bit. -/
theorem C4_clipClearsEndBurst_witness :
    ((writeStream ⟨[], true, 0, 4096, [0], false⟩ 5000 SOAPY_SDR_END_BURST
        0 1000 77 (TxDevOutcome.ok ⟨false⟩) (fun _ => 0)
        (fun t => (t : Int))).2).flagsOut &&& SOAPY_SDR_END_BURST = 0 ∧
    ((writeStream ⟨[], true, 0, 4096, [0], false⟩ 5000 SOAPY_SDR_END_BURST
        0 1000 77 (TxDevOutcome.ok ⟨false⟩) (fun _ => 0)
        (fun t => (t : Int))).2).devCall.mdFlagsIn
      &&& BLADERF_META_FLAG_TX_BURST_END = 0 :=
  ⟨(C4_clipClearsEndBurst ⟨[], true, 0, 4096, [0], false⟩ 5000
      SOAPY_SDR_END_BURST 0 1000 77 (TxDevOutcome.ok ⟨false⟩) (fun _ => 0)
      (fun t => (t : Int)) (by decide)).1,
   (C4_clipClearsEndBurst ⟨[], true, 0, 4096, [0], false⟩ 5000
      SOAPY_SDR_END_BURST 0 1000 77 (TxDevOutcome.ok ⟨false⟩) (fun _ => 0)
      (fun t => (t : Int)) (by decide)).2.1⟩

/-- A successful transmit without the end-of-burst flag (and no
underrun) leaves the status-event queue, buffer capacity and channel
list unchanged, opens the burst, and returns the clipped count. -/
theorem writeStream_ok_no_end (s s' : TxState) (r' : WriteResult)
    (n fl : Nat) (t u : Int) (now : Nat)
    (f : Int → Nat) (g : Nat → Int)
    (hfl : fl &&& SOAPY_SDR_END_BURST = 0)
    (hw : writeStream s n fl t u now (TxDevOutcome.ok ⟨false⟩) f g
      = (s', r')) :
    s'.txResps = s.txResps ∧ s'.inTxBurst = true ∧
    s'.txBuffSize = s.txBuffSize ∧ s'.txChans = s.txChans ∧
    r'.ret = Int.ofNat (min n s.txBuffSize) := by
  have hs : (writeStream s n fl t u now (TxDevOutcome.ok ⟨false⟩) f g).1
      = s' := by rw [hw]
  have hr : (writeStream s n fl t u now (TxDevOutcome.ok ⟨false⟩) f g).2
      = r' := by rw [hw]
  subst hs hr
  by_cases hc : s.txBuffSize < n <;>
    simp [writeStream, hc, hfl, clearFlagBit_end_burst]

/-- A successful transmit with exactly the end-of-burst flag, a count
within capacity and no underrun appends one burst-end status event
stamped with the advanced next tick, closes the burst, and returns the
count. -/
theorem writeStream_ok_end_burst (s s' : TxState) (r' : WriteResult)
    (n : Nat) (hn : n ≤ s.txBuffSize) (t u : Int) (now : Nat)
    (f : Int → Nat) (g : Nat → Int)
    (hw : writeStream s n SOAPY_SDR_END_BURST t u now
      (TxDevOutcome.ok ⟨false⟩) f g = (s', r')) :
    s'.txResps = s.txResps ++
      [{ flags := SOAPY_SDR_END_BURST ||| SOAPY_SDR_HAS_TIME
         timeNs := g s'.txNextTicks
         numElems := 0
         code := 0 }] ∧
    s'.inTxBurst = false ∧ r'.ret = Int.ofNat n := by
  have hs : (writeStream s n SOAPY_SDR_END_BURST t u now
      (TxDevOutcome.ok ⟨false⟩) f g).1 = s' := by rw [hw]
  have hr : (writeStream s n SOAPY_SDR_END_BURST t u now
      (TxDevOutcome.ok ⟨false⟩) f g).2 = r' := by rw [hw]
  subst hs hr
  have hnc : ¬ s.txBuffSize < n := Nat.not_lt.mpr hn
  have hA : SOAPY_SDR_END_BURST &&& SOAPY_SDR_HAS_TIME = 0 := by decide
  have hB : SOAPY_SDR_END_BURST &&& SOAPY_SDR_END_BURST ≠ 0 := by decide
  have hB' : SOAPY_SDR_END_BURST ≠ 0 := by decide
  have hmin : min n s.txBuffSize = n := Nat.min_eq_left hn
  by_cases hb : s.inTxBurst = true <;>
    simp [writeStream, hnc, hA, hB, hB', hb, hmin]

/-- C5: from an idle TX stream, the sequence of three successful
writes [no end-flag, no end-flag, end-flag with a count within
capacity], none reporting an underrun, appends exactly one TX status
event, carrying the burst-end and has-time flags and the end timestamp,
and leaves the burst-open flag false. -/
theorem C5_txBurstSequence (s0 s1 s2 s3 : TxState)
    (r1 r2 r3 : WriteResult) (h0 : s0.inTxBurst = false)
    (n1 n2 n3 : Nat) (hn3 : n3 ≤ s0.txBuffSize) (fl1 fl2 : Nat)
    (hfl1 : fl1 &&& SOAPY_SDR_END_BURST = 0)
    (hfl2 : fl2 &&& SOAPY_SDR_END_BURST = 0)
    (t1 t2 t3 u1 u2 u3 : Int) (now1 now2 now3 : Nat)
    (nsToTicks : Int → Nat) (ticksToNs : Nat → Int)
    (hw1 : writeStream s0 n1 fl1 t1 u1 now1 (TxDevOutcome.ok ⟨false⟩)
      nsToTicks ticksToNs = (s1, r1))
    (hw2 : writeStream s1 n2 fl2 t2 u2 now2 (TxDevOutcome.ok ⟨false⟩)
      nsToTicks ticksToNs = (s2, r2))
    (hw3 : writeStream s2 n3 SOAPY_SDR_END_BURST t3 u3 now3
      (TxDevOutcome.ok ⟨false⟩) nsToTicks ticksToNs = (s3, r3)) :
    s3.inTxBurst = false ∧
    (∃ ev : StreamMetadata,
      s3.txResps = s0.txResps ++ [ev] ∧
      ev.flags = SOAPY_SDR_END_BURST ||| SOAPY_SDR_HAS_TIME ∧
      ev.flags &&& SOAPY_SDR_HAS_TIME ≠ 0 ∧
      ev.timeNs = ticksToNs s3.txNextTicks ∧ ev.code = 0) ∧
    r1.ret = Int.ofNat (min n1 s0.txBuffSize) ∧
    r2.ret = Int.ofNat (min n2 s0.txBuffSize) ∧
    r3.ret = Int.ofNat n3 := by
  obtain ⟨e1resp, e1burst, e1buf, e1ch, e1ret⟩ :=
    writeStream_ok_no_end s0 s1 r1 n1 fl1 t1 u1 now1
      nsToTicks ticksToNs hfl1 hw1
  obtain ⟨e2resp, e2burst, e2buf, e2ch, e2ret⟩ :=
    writeStream_ok_no_end s1 s2 r2 n2 fl2 t2 u2 now2
      nsToTicks ticksToNs hfl2 hw2
  have hn3' : n3 ≤ s2.txBuffSize := by rw [e2buf, e1buf]; exact hn3
  obtain ⟨e3resp, e3burst, e3ret⟩ :=
    writeStream_ok_end_burst s2 s3 r3 n3 hn3' t3 u3 now3
      nsToTicks ticksToNs hw3
  refine ⟨e3burst, ?_, ?_, ?_, e3ret⟩
  · refine ⟨{ flags := SOAPY_SDR_END_BURST ||| SOAPY_SDR_HAS_TIME
              timeNs := ticksToNs s3.txNextTicks
              numElems := 0
              code := 0 }, ?_, rfl,
      by
        show (SOAPY_SDR_END_BURST ||| SOAPY_SDR_HAS_TIME)
          &&& SOAPY_SDR_HAS_TIME ≠ 0
        decide, rfl, rfl⟩
    rw [e3resp, e2resp, e1resp]
  · rw [e1ret]
  · rw [e2ret, e1buf]

/-- Witness for C5: a concrete three-write sequence from an idle
stream ends with exactly one queued burst-end event. -/
theorem C5_txBurstSequence_witness :
    (⟨[⟨6, 160, 0, 0⟩], false, 160, 4096, [0], false⟩ : TxState).inTxBurst
      = false ∧
    (∃ ev : StreamMetadata,
      (⟨[⟨6, 160, 0, 0⟩], false, 160, 4096, [0], false⟩ : TxState).txResps
        = ([] : List StreamMetadata) ++ [ev] ∧
      ev.flags = SOAPY_SDR_END_BURST ||| SOAPY_SDR_HAS_TIME ∧
      ev.flags &&& SOAPY_SDR_HAS_TIME ≠ 0 ∧
      ev.timeNs = (fun t => (t : Int))
        (⟨[⟨6, 160, 0, 0⟩], false, 160, 4096, [0], false⟩
          : TxState).txNextTicks ∧
      ev.code = 0) ∧
    (⟨10, 0, ⟨10, 5, 0, 1⟩⟩ : WriteResult).ret = Int.ofNat (min 10 4096) ∧
    (⟨20, 0, ⟨20, 0, 0, 1⟩⟩ : WriteResult).ret = Int.ofNat (min 20 4096) ∧
    (⟨30, 2, ⟨30, 2, 0, 1⟩⟩ : WriteResult).ret = Int.ofNat 30 :=
  C5_txBurstSequence ⟨[], false, 0, 4096, [0], false⟩
    ⟨[], true, 110, 4096, [0], false⟩ ⟨[], true, 130, 4096, [0], false⟩
    ⟨[⟨6, 160, 0, 0⟩], false, 160, 4096, [0], false⟩
    ⟨10, 0, ⟨10, 5, 0, 1⟩⟩ ⟨20, 0, ⟨20, 0, 0, 1⟩⟩ ⟨30, 2, ⟨30, 2, 0, 1⟩⟩
    rfl 10 20 30 (by decide) 0 0 rfl rfl 0 0 0 1000 1000 1000 100 200 300
    (fun _ => 0) (fun t => (t : Int)) rfl rfl rfl

/-- C8: deactivating a TX stream with zero flags while a burst is open
sends a single zero-valued sample carrying the burst-end metadata flag
with a 100 ms timeout, forces the burst-open flag to false whatever the
device call returns, and returns success. -/
theorem C8_deactivateTxEndsBurst (s : TxState) (h : s.inTxBurst = true)
    (devRet : Int) :
    deactivateStreamTx s 0 devRet
      = ({ s with inTxBurst := false }, 0,
         some ⟨0, 0, 1, BLADERF_META_FLAG_TX_BURST_END, 0, 100⟩) := by
  simp [deactivateStreamTx, h]

/-- Witness for C8 at a concrete open-burst state with a failing
device return code. -/
theorem C8_deactivateTxEndsBurst_witness :
    deactivateStreamTx ⟨[], true, 160, 4096, [0], false⟩ 0 (-9)
      = (⟨[], false, 160, 4096, [0], false⟩, 0,
         some ⟨0, 0, 1, BLADERF_META_FLAG_TX_BURST_END, 0, 100⟩) :=
  C8_deactivateTxEndsBurst ⟨[], true, 160, 4096, [0], false⟩ rfl (-9)

/-- C10: an empty channel list passes channel validation and is
treated exactly as the single-channel list holding channel 0, in both
directions. -/
theorem C10_emptyChannelList :
    resolveChannels [] = [0] ∧
    resolveChannels [] = resolveChannels [0] ∧
    channelLayout Direction.rx (resolveChannels [])
      = some ChannelLayout.rxX1 ∧
    channelLayout Direction.tx (resolveChannels [])
      = some ChannelLayout.txX1 ∧
    (resolveChannels []).length = 1 := by
  decide

/-- C6 counterexample: a negative buffer length that is not a multiple
of 1024, such as -500, is mapped to 1024, not to the next multiple of
1024 (which is 0), so the rounding-up clause of the claim fails for
negative values. -/
theorem C6_setupParams_counterexample :
    setupBufSize (some (-500)) = 1024 ∧ roundUpTo1024 (-500) = 0 ∧
    setupBufSize (some (-500)) ≠ roundUpTo1024 (-500) := by
  refine ⟨by decide, by decide, by decide⟩

/-- C6 amended: buffer count defaults to 32 when absent or 0 and 1 is
bumped to 2; buffer length defaults to 4096 when absent or 0, any
positive non-multiple of 1024 is rounded up to the next multiple of
1024 and positive multiples are kept; a transfer count of 0 or absent
becomes buffer-count/2 and the transfer count is capped at the buffer
count and at 32. -/
theorem C6_setupParams_amended :
    (setupNumBuffs none = 32 ∧ setupNumBuffs (some 0) = 32 ∧
     setupNumBuffs (some 1) = 2) ∧
    (setupBufSize none = 4096 ∧ setupBufSize (some 0) = 4096) ∧
    (∀ v : Int, 0 < v → Int.tmod v 1024 ≠ 0 →
      setupBufSize (some v) = roundUpTo1024 v) ∧
    (∀ v : Int, 0 < v → Int.tmod v 1024 = 0 → setupBufSize (some v) = v) ∧
    (∀ b : Option Int,
      setupNumXfers b none = setupNumXfers b (some 0) ∧
      setupNumXfers b (some 0)
        = min (min (Int.tdiv (setupNumBuffs b) 2) (setupNumBuffs b)) 32) ∧
    (∀ b : Option Int, ∀ x : Int, x ≠ 0 →
      setupNumXfers b (some x) = min (min x (setupNumBuffs b)) 32) := by
  refine ⟨by refine ⟨by decide, by decide, by decide⟩,
    ⟨by decide, by decide⟩, ?_, ?_, ?_, ?_⟩
  · intro v hv hm
    have hv0 : ¬ v = 0 := by omega
    have h1 : Int.tdiv v 1024 = v / 1024 :=
      Int.tdiv_eq_ediv (by omega) (by norm_num)
    have h2 : Int.tmod v 1024 = v % 1024 :=
      Int.tmod_eq_emod (by omega) (by norm_num)
    simp only [setupBufSize, roundUpTo1024]
    rw [if_neg hv0, if_pos (by rw [h2] at hm; rw [h2]; exact hm), h1]
    rw [h2] at hm
    omega
  · intro v hv hm
    have hv0 : ¬ v = 0 := by omega
    simp only [setupBufSize]
    rw [if_neg hv0, if_neg (not_not_intro hm)]
  · intro b
    refine ⟨rfl, ?_⟩
    simp only [setupNumXfers, min_def]
    split_ifs <;> omega
  · intro b x hx
    simp only [setupNumXfers, min_def]
    rw [if_neg hx]
    split_ifs <;> omega

/-- Witness for C6 amended, at buffer length 1025 (rounded up to 2048)
and at concrete transfer-count inputs. -/
theorem C6_setupParams_amended_witness :
    setupBufSize (some 1025) = roundUpTo1024 1025 ∧
    setupNumXfers (some 200) (some 100) = min (min 100 200) 32 :=
  ⟨(C6_setupParams_amended).2.2.1 1025 (by decide) (by decide),
   by
    have h := (C6_setupParams_amended).2.2.2.2.2 (some 200) 100
      (by decide)
    simpa using h⟩

/-- C7: the single-channel float receive conversion divides 16-bit
native samples by 2048 and 8-bit native samples by 128; evaluated at
the representative native values, and shown exactly representable in
binary32 across the whole native ranges, so the float computation in
the source incurs no rounding there. -/
theorem C7_rxFloatConversion :
    (rxFloatSample16 0 = 0 ∧ rxFloatSample16 2048 = 1 ∧
     rxFloatSample16 (-2048) = -1 ∧
     rxFloatSample16 32767 = 32767 / 2048 ∧
     rxFloatSample16 (-32768) = -16) ∧
    (∀ v : Int, -32768 ≤ v → v ≤ 32767 →
      rxFloatSample16 v = (v : ℚ) / 2048 ∧
      reprFloat32 (rxFloatSample16 v)) ∧
    (∀ v : Int, -128 ≤ v → v ≤ 127 →
      rxFloatSample8 v = (v : ℚ) / 128 ∧
      reprFloat32 (rxFloatSample8 v)) := by
  have hpow : (2 : Nat) ^ 24 = 16777216 := by norm_num
  refine ⟨⟨?_, ?_, ?_, ?_, ?_⟩, ?_, ?_⟩
  · norm_num [rxFloatSample16]
  · norm_num [rxFloatSample16]
  · norm_num [rxFloatSample16]
  · norm_num [rxFloatSample16]
  · norm_num [rxFloatSample16]
  · intro v h1 h2
    refine ⟨rfl, v, -11, by omega, by norm_num, by norm_num, ?_⟩
    show (v : ℚ) / 2048 = (v : ℚ) * (2 : ℚ) ^ (-11 : Int)
    rw [zpow_neg]
    norm_num
    ring
  · intro v h1 h2
    refine ⟨rfl, v, -7, by omega, by norm_num, by norm_num, ?_⟩
    show (v : ℚ) / 128 = (v : ℚ) * (2 : ℚ) ^ (-7 : Int)
    rw [zpow_neg]
    norm_num
    ring

/-- Witness for C7 at the extreme representative values of each native
width. -/
theorem C7_rxFloatConversion_witness :
    (rxFloatSample16 (-32768) = ((-32768 : Int) : ℚ) / 2048 ∧
      reprFloat32 (rxFloatSample16 (-32768))) ∧
    (rxFloatSample8 (-128) = ((-128 : Int) : ℚ) / 128 ∧
      reprFloat32 (rxFloatSample8 (-128))) :=
  ⟨(C7_rxFloatConversion).2.1 (-32768) (by norm_num) (by norm_num),
   (C7_rxFloatConversion).2.2 (-128) (by norm_num) (by norm_num)⟩

end SoapyBladeRF
